import Mathlib

/-!
Shallow embedding of the daily-brief pipeline (`src/pages/api/daily-brief.ts`
and the near-duplicate variant in `src/unnamed/part_000`).

Conventions of the embedding:
* JavaScript strings-or-undefined are `Option String`; the JS `x || d`
  fallback (which also replaces the empty string, the only falsy string)
  is `jsOr`.
* JavaScript numbers are `JSNum`: exact rationals plus `NaN` and the two
  infinities, with the IEEE special-value propagation rules of `-`, `/`, `*`
  that the source can actually hit (division by zero in particular).
  `Number.prototype.toFixed(2)` is `JSNum.toFixed2`, following the
  ECMAScript algorithm (round to nearest multiple of 1/100, ties away
  from zero after the sign is split off).
* Each `async` function that talks to the network is modelled as a total
  function over an explicit environment record describing the outcomes of
  its HTTP calls (a `fetchThrows` flag for a rejected promise, the `ok`
  status flag where the source reads it, and the decoded body shape).
  A thrown-and-caught JS exception is `Except.error ()`.
* `Object.keys(..).sort()` on the date-keyed time series is modelled by a
  stable insertion sort on the keys in object insertion order, comparing
  strings by code point exactly as the default JS comparator does.
-/

namespace DailyBrief

/-- One parsed RSS `<item>`, as produced by xml2js: every present tag is a
nonempty array of strings (`title?: string[]` etc. in the source). -/
structure FeedItem where
  title : Option (List String)
  description : Option (List String)
  link : Option (List String)
  pubDate : Option (List String)
deriving DecidableEq

/-- JS `x || d` for `x : string | undefined`: `undefined` and the empty
string (the only falsy string) fall back to `d`. -/
def jsOr : Option String → String → String
  | none, d => d
  | some s, d => if s = "" then d else s

/-- JS `arr?.[0]` for an optional array field: `undefined` when the field is
absent or the array is empty, otherwise the first element. -/
def firstString (o : Option (List String)) : Option String :=
  o.bind List.head?

/-- The per-item line of `buildBrief` in `daily-brief.ts`:
`` `${item.title?.[0] || "No title"} (${item.link?.[0] || "No link"}) - ${item.description?.[0] || "No description"}` ``. -/
def renderItem (item : FeedItem) : String :=
  jsOr (firstString item.title) "No title" ++ " (" ++
    jsOr (firstString item.link) "No link" ++ ") - " ++
    jsOr (firstString item.description) "No description"

/-- One feed section of the prompt: `feed.slice(0, 10).map(renderItem).join("\n")`. -/
def renderSection (feed : List FeedItem) : String :=
  String.intercalate "\n" ((feed.take 10).map renderItem)

/-- Rendering of one item as the specification describes it: the documented
placeholder for exactly the absent fields, every present field interpolated
with its own (first) value unchanged. Follows the spec words, to be compared
with `renderItem` from the source. -/
def specSlot : Option (List String) → String → String
  | none, d => d
  | some [], d => d
  | some (s :: _), _ => s

/-- Spec-worded per-item rendering, line format
`"{title} ({link}) - {description}"`; see `specSlot`. -/
def renderItemSpec (item : FeedItem) : String :=
  specSlot item.title "No title" ++ " (" ++
    specSlot item.link "No link" ++ ") - " ++
    specSlot item.description "No description"

/-- A field is either absent or carries a nonempty first string (the shape
xml2js actually produces for a present, nonempty tag). -/
def okField (o : Option (List String)) : Prop :=
  o = none ∨ ∃ s l, o = some (s :: l) ∧ s ≠ ""

/-- `<channel>` as parsed by xml2js: an optional `item` array. -/
structure RSSChannel where
  item : Option (List FeedItem)
deriving DecidableEq

/-- Body of the parsed `<rss>` element: an optional `channel` array. -/
structure RSSBody where
  channel : Option (List RSSChannel)
deriving DecidableEq

/-- A parsed XML document, which may or may not have an `rss` root. -/
structure RSSDoc where
  rss : Option RSSBody
deriving DecidableEq

/-- Environment of one `fetchAndParseRSS(url)` call: whether `fetch` (or
reading the body text) rejects, the HTTP status code of the response, and
the outcome of `parseStringPromise` on the body text (`Except.error` for a
parse rejection). The source never inspects the status. -/
structure RSSEnv where
  fetchThrows : Bool
  status : Nat
  parse : Except Unit RSSDoc

/-- `fetchAndParseRSS`: fetch, read text, parse, then
`result.rss?.channel?.[0]?.item || []`; any rejection is caught and yields `[]`. -/
def fetchAndParseRSS (e : RSSEnv) : List FeedItem :=
  if e.fetchThrows then []
  else
    match e.parse with
    | .error _ => []
    | .ok doc =>
      ((((doc.rss.bind RSSBody.channel).bind List.head?).bind RSSChannel.item).getD [])

/-- The parsed document lacks the `rss`/`channel`/`item` structure. -/
def rssLacksItems (d : RSSDoc) : Prop :=
  d.rss = none ∨
  (∃ b, d.rss = some b ∧ b.channel = none) ∨
  (∃ b, d.rss = some b ∧ b.channel = some []) ∨
  (∃ b ch chs, d.rss = some b ∧ b.channel = some (ch :: chs) ∧ ch.item = none)

/-- A JavaScript number as the market-data code can produce it: an exact
rational, `NaN`, or an infinity. -/
inductive JSNum where
  | nan
  | inf
  | neginf
  | num (q : ℚ)
deriving DecidableEq

/-- JS subtraction on `JSNum`. -/
def jsSub : JSNum → JSNum → JSNum
  | .nan, _ => .nan
  | _, .nan => .nan
  | .num a, .num b => .num (a - b)
  | .inf, .inf => .nan
  | .inf, _ => .inf
  | .neginf, .neginf => .nan
  | .neginf, _ => .neginf
  | .num _, .inf => .neginf
  | .num _, .neginf => .inf

/-- JS division on `JSNum`; in particular `a / 0` is `Infinity`, `-Infinity`
or `NaN` according to the sign of `a`. -/
def jsDiv : JSNum → JSNum → JSNum
  | .nan, _ => .nan
  | _, .nan => .nan
  | .num a, .num b =>
    if b = 0 then (if 0 < a then .inf else if a < 0 then .neginf else .nan)
    else .num (a / b)
  | .inf, .inf => .nan
  | .inf, .neginf => .nan
  | .neginf, .inf => .nan
  | .neginf, .neginf => .nan
  | .inf, .num b => if b < 0 then .neginf else .inf
  | .neginf, .num b => if b < 0 then .inf else .neginf
  | .num _, .inf => .num 0
  | .num _, .neginf => .num 0

/-- JS multiplication on `JSNum`. -/
def jsMul : JSNum → JSNum → JSNum
  | .nan, _ => .nan
  | _, .nan => .nan
  | .num a, .num b => .num (a * b)
  | .inf, .inf => .inf
  | .inf, .neginf => .neginf
  | .neginf, .inf => .neginf
  | .neginf, .neginf => .inf
  | .inf, .num b => if 0 < b then .inf else if b < 0 then .neginf else .nan
  | .neginf, .num b => if 0 < b then .neginf else if b < 0 then .inf else .nan
  | .num a, .inf => if 0 < a then .inf else if a < 0 then .neginf else .nan
  | .num a, .neginf => if 0 < a then .neginf else if a < 0 then .inf else .nan

/-- Code-point comparison of character lists, the default JS string order. -/
def strLtChars : List Char → List Char → Bool
  | [], [] => false
  | [], _ :: _ => true
  | _ :: _, [] => false
  | a :: as, b :: bs =>
    if a.val < b.val then true
    else if b.val < a.val then false
    else strLtChars as bs

/-- `s ≤ t` in JS string order. -/
def strLe (s t : String) : Bool :=
  !(strLtChars t.data s.data)

/-- Insert a string into an ascending list, keeping it sorted. -/
def insertSorted (s : String) : List String → List String
  | [] => [s]
  | t :: ts => if strLe s t then s :: t :: ts else t :: insertSorted s ts

/-- `Array.prototype.sort()` with the default comparator on string keys:
stable ascending code-point order. -/
def sortStrings : List String → List String
  | [] => []
  | s :: ss => insertSorted s (sortStrings ss)

/-- Left-pad a centesimal remainder to two digits. -/
def pad2 (n : Nat) : String :=
  if n < 10 then "0" ++ toString n else toString n

/-- Print `n` hundredths with two decimals. -/
def fmtCenti (n : Nat) : String :=
  toString (n / 100) ++ "." ++ pad2 (n % 100)

/-- For `0 ≤ q`: the integer nearest to `100 * q`, ties upward — the `n`
chosen by the ECMAScript `toFixed(2)` algorithm. -/
def round100 (q : ℚ) : Nat :=
  (q * 100 + 1 / 2).num.toNat / (q * 100 + 1 / 2).den

/-- `toFixed(2)` on a finite JS number modelled exactly. -/
def toFixed2Q (q : ℚ) : String :=
  if q < 0 then "-" ++ fmtCenti (round100 (-q)) else fmtCenti (round100 q)

/-- `Number.prototype.toFixed(2)`, including the special values. -/
def JSNum.toFixed2 : JSNum → String
  | .nan => "NaN"
  | .inf => "Infinity"
  | .neginf => "-Infinity"
  | .num q => toFixed2Q q

/-- Environment of one Alpha Vantage `TIME_SERIES_DAILY` request in
`fetchMarketData` of `daily-brief.ts`: whether `fetch`/`text`/`json`
rejects, `response.ok`, and `data["Time Series (Daily)"]` as an association
list from date key to the `parseFloat`-ed `"4. close"` value (a missing or
unparsable close is `JSNum.nan`, as `parseFloat` would produce). -/
structure AVResp where
  fetchThrows : Bool
  ok : Bool
  timeSeries : Option (List (String × JSNum))

/-- `Object.keys(timeSeries).sort()`. -/
def sortedDates (ts : List (String × JSNum)) : List String :=
  sortStrings (ts.map Prod.fst)

/-- `.slice(-2)` on a list of keys. -/
def lastTwo (l : List String) : List String :=
  l.drop (l.length - 2)

/-- The per-symbol body of the `for (const symbol of symbols)` loop in
`fetchMarketData` (`daily-brief.ts` lines 46-89): any failure throws
(`Except.error`), success returns the latest close and the rendered
`changePercent = ((latest - previous) / previous * 100).toFixed(2)`. -/
def processSymbol (r : AVResp) : Except Unit (JSNum × String) :=
  if r.fetchThrows then .error ()
  else if r.ok then
    match r.timeSeries with
    | none => .error ()
    | some ts =>
      let dates := lastTwo (sortedDates ts)
      if dates.length < 2 then .error ()
      else
        match ts.lookup (dates.getD 1 ""), ts.lookup (dates.getD 0 "") with
        | some latestClose, some previousClose =>
          .ok (latestClose,
            (jsMul (jsDiv (jsSub latestClose previousClose) previousClose) (.num 100)).toFixed2)
        | _, _ => .error ()
  else .error ()

/-- Decoded `bitcoin` object of the CoinGecko response; each field may be
absent, in which case the source's `.toFixed(2)` on it throws. -/
structure BTCData where
  usd : Option JSNum
  usd24hChange : Option JSNum

/-- Environment of the CoinGecko request in `fetchMarketData`. -/
structure CGResp where
  fetchThrows : Bool
  ok : Bool
  btc : Option BTCData

/-- Environment of one whole `fetchMarketData()` run in `daily-brief.ts`. -/
structure MarketEnv where
  spy : AVResp
  qqq : AVResp
  cg : CGResp

/-- The `try` body of `fetchMarketData`: SPY, then QQQ, then CoinGecko;
on success the rendered snapshot line. -/
def fetchMarketDataE (e : MarketEnv) : Except Unit String :=
  match processSymbol e.spy with
  | .error _ => .error ()
  | .ok spyData =>
    match processSymbol e.qqq with
    | .error _ => .error ()
    | .ok qqqData =>
      if e.cg.fetchThrows then .error ()
      else if e.cg.ok then
        match e.cg.btc with
        | none => .error ()
        | some b =>
          match b.usd, b.usd24hChange with
          | some btcPrice, some btcChange =>
            .ok ("Market snapshot: S&P 500 (via SPY): $" ++ spyData.1.toFixed2 ++
              " (" ++ spyData.2 ++ "%), Nasdaq (via QQQ): $" ++ qqqData.1.toFixed2 ++
              " (" ++ qqqData.2 ++ "%), Bitcoin: $" ++ btcPrice.toFixed2 ++
              " (" ++ btcChange.toFixed2 ++ "%)")
          | _, _ => .error ()
      else .error ()

/-- `fetchMarketData` of `daily-brief.ts`: the `try` body with its
`catch` returning the fixed placeholder. -/
def fetchMarketData (e : MarketEnv) : String :=
  match fetchMarketDataE e with
  | .ok s => s
  | .error _ => "Market data unavailable"

/-- The SPY or QQQ leg fails: rejected fetch, non-ok status, missing
`Time Series (Daily)` key, or fewer than two dated observations. -/
def avFails (r : AVResp) : Prop :=
  r.fetchThrows = true ∨ r.ok = false ∨ r.timeSeries = none ∨
    ∃ ts, r.timeSeries = some ts ∧ ts.length < 2

/-- The CoinGecko leg fails: rejected fetch, non-ok status, missing
`bitcoin` object, or a `bitcoin` object missing one of its fields. -/
def cgFails (c : CGResp) : Prop :=
  c.fetchThrows = true ∨ c.ok = false ∨ c.btc = none ∨
    ∃ b, c.btc = some b ∧ (b.usd = none ∨ b.usd24hChange = none)

/-- `data["Global Quote"]` of a `GLOBAL_QUOTE` response in the `part_000`
variant of `fetchMarketData`. -/
structure GQuote where
  price : Option String
  changePercent : Option String
deriving DecidableEq

/-- One `GLOBAL_QUOTE` request of the `part_000` variant: rejected
fetch/json, or a decoded body whose `"Global Quote"` key may be absent. -/
structure GQResp where
  fetchThrows : Bool
  quote : Option GQuote
deriving DecidableEq

/-- The `CURRENCY_EXCHANGE_RATE` request of the `part_000` variant;
`rate` is `data["Realtime Currency Exchange Rate"]?.["5. Exchange Rate"]`. -/
structure FXResp where
  fetchThrows : Bool
  rate : Option String
deriving DecidableEq

/-- `fetchMarketData` of the `part_000` variant (lines 36-61): sequential
fetches, each missing field degraded to `"N/A"` by `|| "N/A"`, with the
placeholder string only when one of the fetches itself rejects. -/
def fetchMarketDataV0 (sp nas : GQResp) (btc : FXResp) : String :=
  if sp.fetchThrows then "Market data unavailable"
  else if nas.fetchThrows then "Market data unavailable"
  else if btc.fetchThrows then "Market data unavailable"
  else
    "Market snapshot: S&P 500: " ++ jsOr (sp.quote.bind GQuote.price) "N/A" ++
      " (" ++ jsOr (sp.quote.bind GQuote.changePercent) "N/A" ++
      "), Nasdaq: " ++ jsOr (nas.quote.bind GQuote.price) "N/A" ++
      " (" ++ jsOr (nas.quote.bind GQuote.changePercent) "N/A" ++
      "), Bitcoin: $" ++ jsOr btc.rate "N/A"

/-- The fixed instructional template of `buildBrief` in `daily-brief.ts`
(lines 211-239), abstracted over its six interpolation slots, in order:
AI, YC/TECH, WORLD NEWS, PRODUCT HUNT, HACKER NEWS, MARKETS. -/
def promptTemplate (aiS ycS worldS phS hnS marketS : String) : String :=
  "\nGive me a crisp bullet summary (≤3 sentences each) of:\n1. notable AI research news (especially large-model papers),\n2. any YC/Techstars company milestones,\n3. top world news,\n4. top products launched on Product Hunt today,\n5. top stories from Hacker News,\n6. market close snapshot (S&P 500, Nasdaq, Bitcoin).\n\nRaw feeds:\nAI:\n"
    ++ aiS ++ "\n\nYC/TECH:\n" ++ ycS ++ "\n\nWORLD NEWS:\n" ++ worldS ++
    "\n\nPRODUCT HUNT:\n" ++ phS ++ "\n\nHACKER NEWS:\n" ++ hnS ++
    "  // Reuse for HN stories\n\nMARKETS:\n" ++ marketS ++
    "\n\nFormat the response as a clean, professional daily brief using HTML with clear sections (use <h2> for headings), bullet points (<ul><li>), and ensure it's mobile-friendly with sans-serif font and good spacing. For each summary bullet, include a clickable link (<a href=\"original_url\">Read more</a>) to the source article or paper. Do not include any code fences like ``` in the output."

/-- Environment of one `buildBrief()` run: the already-settled results of
the five concurrent fetches (each of which resolves rather than rejects),
plus the outcome of the OpenAI chat-completion call as a function of the
prompt it is sent: `Except.error` when the API call rejects, otherwise
`completion.choices[0].message.content` (`none` for null/missing content). -/
structure BriefEnv where
  aiFeed : List FeedItem
  ycFeed : List FeedItem
  worldFeed : List FeedItem
  productHuntSummary : String
  marketData : String
  openaiApi : String → Except Unit (Option String)

/-- The prompt assembled by `buildBrief`: note the HACKER NEWS slot is fed
`ycSummary` again (`${ycSummary}  // Reuse for HN stories`). -/
def buildPromptText (e : BriefEnv) : String :=
  promptTemplate (renderSection e.aiFeed) (renderSection e.ycFeed)
    (renderSection e.worldFeed) e.productHuntSummary
    (renderSection e.ycFeed) e.marketData

/-- `buildBrief`: sends the assembled prompt, substitutes the fixed
fallback for empty/missing content, and rethrows an API rejection
(`catch (error) { ... throw error; }`). -/
def buildBrief (e : BriefEnv) : Except Unit String :=
  match e.openaiApi (buildPromptText e) with
  | .error _ => .error ()
  | .ok content => .ok (jsOr content "Failed to generate brief")

/-- Environment of one handler invocation: the request method, the
`buildBrief` environment, and the outcome of `sendEmail` as a function of
the body it is given. -/
structure HandlerEnv where
  method : String
  brief : BriefEnv
  emailApi : String → Except Unit Unit

/-- Observable outcome of one handler invocation: the HTTP status written
to the response and the list of bodies `sendEmail` was invoked with. -/
structure HandlerResult where
  status : Nat
  emailsSent : List String
deriving DecidableEq

/-- The exported Next.js `handler`: reject non-POST with 405, otherwise
`buildBrief` then `sendEmail`; any error from either yields a 500, and
`sendEmail` is recorded as invoked exactly when `buildBrief` succeeded. -/
def handler (e : HandlerEnv) : HandlerResult :=
  if e.method ≠ "POST" then ⟨405, []⟩
  else
    match buildBrief e.brief with
    | .error _ => ⟨500, []⟩
    | .ok brief =>
      match e.emailApi brief with
      | .error _ => ⟨500, [brief]⟩
      | .ok _ => ⟨200, [brief]⟩

/-! Concrete inputs used by witnesses and counterexamples. -/

/-- A fully populated feed item. -/
def cItemA : FeedItem :=
  ⟨some ["A title"], some ["A description"], some ["https://a.example"], none⟩

/-- Another fully populated feed item, the eleventh of a sample feed. -/
def cItemB : FeedItem :=
  ⟨some ["B title"], some ["B description"], some ["https://b.example"], none⟩

/-- An item with no `title` tag and ordinary `link` and `description`. -/
def cItemMissingTitle : FeedItem :=
  ⟨none, some ["desc"], some ["https://a.example"], none⟩

/-- An item with no `title`, a `link` holding the empty string, and an
ordinary `description`. -/
def cItemEmptyLink : FeedItem :=
  ⟨none, some ["d"], some [""], none⟩

/-- A 200 response whose body fails to parse as XML. -/
def cRSSParseError : RSSEnv :=
  ⟨false, 200, .error ()⟩

/-- A 500 response whose body nevertheless parses to a well-formed feed
with one item: the source never looks at the status. -/
def cRSS500 : RSSEnv :=
  ⟨false, 500, .ok ⟨some ⟨some [⟨some [cItemA]⟩]⟩⟩⟩

/-- A two-day time series with closes 100 then 110. -/
def cTsGood : List (String × JSNum) :=
  [("2024-01-01", .num 100), ("2024-01-02", .num 110)]

/-- A healthy Alpha Vantage response carrying `cTsGood`. -/
def cAVgood : AVResp :=
  ⟨false, true, some cTsGood⟩

/-- A two-day time series whose previous close is 0. -/
def cTsZero : List (String × JSNum) :=
  [("2024-01-01", .num 0), ("2024-01-02", .num 110)]

/-- An Alpha Vantage response whose previous close is 0. -/
def cAVzero : AVResp :=
  ⟨false, true, some cTsZero⟩

/-- An Alpha Vantage request whose fetch rejects. -/
def cAVthrow : AVResp :=
  ⟨true, true, none⟩

/-- A healthy CoinGecko response: price 50000, 24h change 1.5. -/
def cCGgood : CGResp :=
  ⟨false, true, some ⟨some (.num 50000), some (.num (3 / 2))⟩⟩

/-- A market run where the SPY fetch rejects and everything else is healthy. -/
def cMarketFail : MarketEnv :=
  ⟨cAVthrow, cAVgood, cCGgood⟩

/-- A market run where SPY has a previous close of 0 and everything else is
healthy. -/
def cMarketZero : MarketEnv :=
  ⟨cAVzero, cAVgood, cCGgood⟩

/-- A `GLOBAL_QUOTE` body with no `"Global Quote"` key (e.g. a rate-limit
note), delivered without the fetch rejecting. -/
def cSpMalformed : GQResp :=
  ⟨false, none⟩

/-- A healthy `GLOBAL_QUOTE` response for the Nasdaq leg. -/
def cNasGood : GQResp :=
  ⟨false, some ⟨some "20000.00", some "1.00%"⟩⟩

/-- A healthy exchange-rate response for the Bitcoin leg. -/
def cBtcGood : FXResp :=
  ⟨false, some "50000.00"⟩

/-- A brief environment whose OpenAI call rejects. -/
def cBriefErr : BriefEnv :=
  ⟨[], [], [], "PH", "MKT", fun _ => .error ()⟩

/-- A brief environment whose OpenAI call succeeds with null content. -/
def cBriefEmpty : BriefEnv :=
  ⟨[], [], [], "PH", "MKT", fun _ => .ok none⟩

/-- A POST invocation over `cBriefErr` with a healthy email API. -/
def cHandlerErr : HandlerEnv :=
  ⟨"POST", cBriefErr, fun _ => .ok ()⟩

/-- A POST invocation over `cBriefEmpty` with a healthy email API. -/
def cHandlerEmpty : HandlerEnv :=
  ⟨"POST", cBriefEmpty, fun _ => .ok ()⟩

/-! Helper lemmas. -/

theorem insertSorted_length (s : String) (l : List String) :
    (insertSorted s l).length = l.length + 1 := by
  induction l with
  | nil => rfl
  | cons t ts ih =>
    simp only [insertSorted]
    split <;> simp [ih]

theorem sortStrings_length (l : List String) :
    (sortStrings l).length = l.length := by
  induction l with
  | nil => rfl
  | cons s ss ih => simp [sortStrings, insertSorted_length, ih]

theorem jsOr_firstString_eq_specSlot (o : Option (List String)) (d : String)
    (h : okField o) : jsOr (firstString o) d = specSlot o d := by
  rcases h with h | ⟨s, l, h, hs⟩
  · rw [h]; rfl
  · rw [h]; simp [jsOr, firstString, specSlot, hs]

theorem avFails_error (r : AVResp) (h : avFails r) :
    processSymbol r = .error () := by
  unfold processSymbol
  rcases h with h | h | h | ⟨ts, hts, hlen⟩
  · simp [h]
  · cases hf : r.fetchThrows
    · simp [hf, h]
    · simp [hf]
  · cases hf : r.fetchThrows
    · cases hok : r.ok
      · simp [hf, hok]
      · simp [hf, hok, h]
    · simp [hf]
  · cases hf : r.fetchThrows
    · cases hok : r.ok
      · simp [hf, hok]
      · have hl2 : (lastTwo (sortedDates ts)).length < 2 := by
          unfold lastTwo sortedDates
          rw [List.length_drop, sortStrings_length, List.length_map]
          omega
        simp [hf, hok, hts, hl2]
    · simp [hf]

/-! Claim theorems. -/

/-- Claim C5: for a feed of more than 10 well-formed items, the rendered
section is exactly the first 10 items in source order, one line per item
joined by newlines; items past the tenth do not influence the section. -/
theorem renderSection_first_ten (xs ys : List FeedItem) (h : xs.length = 10) :
    renderSection (xs ++ ys) = String.intercalate "\n" (xs.map renderItem) := by
  unfold renderSection
  rw [← h, List.take_left]

theorem renderSection_first_ten_witness :
    renderSection (List.replicate 10 cItemA ++ [cItemB]) =
      String.intercalate "\n" ((List.replicate 10 cItemA).map renderItem) :=
  renderSection_first_ten _ _ (by decide)

/-- Claim C6, amended: for an item lacking one or more of title, link,
description, and whose present fields carry a nonempty first string, the
rendering substitutes the documented placeholder for exactly the missing
fields and renders the present fields unchanged, in the format
`"{title} ({link}) - {description}"`. (As literally stated the claim fails:
a present field holding the empty string is also replaced by its
placeholder, see the counterexample.) -/
theorem renderItem_matches_spec_on_missing (item : FeedItem)
    (hmiss : item.title = none ∨ item.link = none ∨ item.description = none)
    (ht : okField item.title) (hl : okField item.link)
    (hd : okField item.description) :
    renderItem item = renderItemSpec item := by
  unfold renderItem renderItemSpec
  rw [jsOr_firstString_eq_specSlot _ _ ht, jsOr_firstString_eq_specSlot _ _ hl,
    jsOr_firstString_eq_specSlot _ _ hd]

theorem renderItem_matches_spec_witness :
    renderItem cItemMissingTitle = renderItemSpec cItemMissingTitle :=
  renderItem_matches_spec_on_missing cItemMissingTitle (Or.inl rfl)
    (Or.inl rfl)
    (Or.inr ⟨"https://a.example", [], rfl, by decide⟩)
    (Or.inr ⟨"desc", [], rfl, by decide⟩)

/-- Claim C6, counterexample: an item lacking its title whose present link
field holds the empty string renders with the `"No link"` placeholder, not
with the present (empty) link value the claim promises. -/
theorem renderItem_emptyLink_counterexample :
    cItemEmptyLink.title = none ∧
      renderItem cItemEmptyLink ≠ renderItemSpec cItemEmptyLink := by
  decide

/-- Claim C10: a field whose first element is the empty string is rendered
with its placeholder, exactly as if the field were absent (JS `||` treats
the empty string as falsy). -/
theorem emptyString_field_renders_placeholder :
    ∀ (rest : List String) (t d l pd : Option (List String)),
      renderItem ⟨some ("" :: rest), d, l, pd⟩ = renderItem ⟨none, d, l, pd⟩ ∧
      renderItem ⟨t, d, some ("" :: rest), pd⟩ = renderItem ⟨t, d, none, pd⟩ ∧
      renderItem ⟨t, some ("" :: rest), l, pd⟩ = renderItem ⟨t, none, l, pd⟩ := by
  intro rest t d l pd
  refine ⟨?_, ?_, ?_⟩ <;> simp [renderItem, firstString, jsOr]

/-- Claim C2, amended: `fetchAndParseRSS` never throws (it is a total
function of its environment) and returns the empty list whenever the fetch
rejects, the XML fails to parse, or the parsed document lacks the
`rss`/`channel`/`item` structure. (As literally stated the claim also
promises an empty list for every non-2xx status; the status is in fact
never inspected, see the counterexample.) -/
theorem rss_failure_returns_empty (e : RSSEnv)
    (h : e.fetchThrows = true ∨ e.parse = .error () ∨
      ∃ d, e.parse = .ok d ∧ rssLacksItems d) :
    fetchAndParseRSS e = [] := by
  unfold fetchAndParseRSS
  rcases h with h | h | ⟨d, hd, hl⟩
  · simp [h]
  · cases hf : e.fetchThrows
    · simp [hf, h]
    · simp [hf]
  · cases hf : e.fetchThrows
    · rcases hl with h1 | ⟨b, hb, hc⟩ | ⟨b, hb, hc⟩ | ⟨b, ch, chs, hb, hc, hi⟩
      · simp [hf, hd, h1]
      · simp [hf, hd, hb, hc]
      · simp [hf, hd, hb, hc]
      · simp [hf, hd, hb, hc, hi]
    · simp [hf]

theorem rss_failure_returns_empty_witness :
    fetchAndParseRSS cRSSParseError = [] :=
  rss_failure_returns_empty cRSSParseError (Or.inr (Or.inl rfl))

/-- Claim C2, counterexample: a response with status 500 whose body is a
well-formed feed yields that feed's items, not the empty list, because the
source never checks the response status. -/
theorem rss_non2xx_counterexample :
    ¬(200 ≤ cRSS500.status ∧ cRSS500.status < 300) ∧
      fetchAndParseRSS cRSS500 = [cItemA] ∧ fetchAndParseRSS cRSS500 ≠ [] := by
  decide

/-- Claim C7: when the OpenAI call rejects on a POST invocation, the
handler responds 500 and `sendEmail` is never invoked. -/
theorem api_error_yields_500_no_email (e : HandlerEnv) (hm : e.method = "POST")
    (ho : e.brief.openaiApi (buildPromptText e.brief) = .error ()) :
    handler e = ⟨500, []⟩ := by
  unfold handler
  rw [hm, if_neg (by simp)]
  unfold buildBrief
  rw [ho]

theorem api_error_yields_500_no_email_witness :
    handler cHandlerErr = ⟨500, []⟩ :=
  api_error_yields_500_no_email cHandlerErr rfl rfl

/-- Claim C8: when the OpenAI call succeeds with null or empty content, the
brief equals the fixed fallback string and `sendEmail` is invoked with that
fallback as the body. -/
theorem empty_content_fallback_delivered (e : HandlerEnv)
    (hm : e.method = "POST")
    (hc : e.brief.openaiApi (buildPromptText e.brief) = .ok none ∨
      e.brief.openaiApi (buildPromptText e.brief) = .ok (some "")) :
    buildBrief e.brief = .ok "Failed to generate brief" ∧
      (handler e).emailsSent = ["Failed to generate brief"] := by
  have hb : buildBrief e.brief = .ok "Failed to generate brief" := by
    unfold buildBrief
    rcases hc with h | h <;> rw [h] <;> rfl
  refine ⟨hb, ?_⟩
  unfold handler
  rw [hm, if_neg (by simp), hb]
  rcases hE : e.emailApi "Failed to generate brief" with u | u <;> simp [hE]

theorem empty_content_fallback_delivered_witness :
    buildBrief cHandlerEmpty.brief = .ok "Failed to generate brief" ∧
      (handler cHandlerEmpty).emailsSent = ["Failed to generate brief"] :=
  empty_content_fallback_delivered cHandlerEmpty rfl (Or.inl rfl)

/-- Claim C9: the assembled prompt interpolates one and the same string —
the rendered Hacker News feed summary — into both the YC/TECH slot and the
HACKER NEWS slot of the fixed template. -/
theorem prompt_hn_equals_yc :
    ∀ e : BriefEnv, ∃ s : String,
      buildPromptText e =
        promptTemplate (renderSection e.aiFeed) s (renderSection e.worldFeed)
          e.productHuntSummary s e.marketData ∧
      s = renderSection e.ycFeed :=
  fun e => ⟨renderSection e.ycFeed, rfl, rfl⟩

/-- Claim C3: with a time series of at least two dated observations, the
collector takes the last two keys of the ascending sort, computes
`change = latest - previous` and `changePercent = 100 * change / previous`,
and renders the percentage with `toFixed(2)`. -/
theorem changePercent_lastTwoSortedDates (r : AVResp)
    (ts : List (String × JSNum)) (d0 d1 : String) (p l : ℚ)
    (hthrow : r.fetchThrows = false) (hok : r.ok = true)
    (hts : r.timeSeries = some ts)
    (hdates : lastTwo (sortedDates ts) = [d0, d1])
    (hp : ts.lookup d0 = some (.num p)) (hl : ts.lookup d1 = some (.num l))
    (hpz : p ≠ 0) :
    processSymbol r = .ok (.num l, toFixed2Q (100 * (l - p) / p)) := by
  have key : jsMul (jsDiv (jsSub (.num l) (.num p)) (.num p)) (.num 100) =
      .num (100 * (l - p) / p) := by
    simp only [jsSub, jsDiv, jsMul, if_neg hpz, JSNum.num.injEq]
    ring
  unfold processSymbol
  rw [hthrow, hok]
  simp only [Bool.false_eq_true, if_false, if_true]
  rw [hts]
  simp only [hdates, List.length_cons, List.length_nil]
  norm_num
  simp only [hl, hp]
  rw [key]
  simp [JSNum.toFixed2]

theorem changePercent_example_witness :
    lastTwo (sortedDates cTsGood) = ["2024-01-01", "2024-01-02"] ∧
      processSymbol cAVgood = .ok (.num 110, "10.00") := by
  have h1 : lastTwo (sortedDates cTsGood) = ["2024-01-01", "2024-01-02"] := by
    decide
  refine ⟨h1, ?_⟩
  rw [changePercent_lastTwoSortedDates cAVgood cTsGood "2024-01-01"
    "2024-01-02" 100 110 rfl rfl rfl h1 (by with_unfolding_all decide)
    (by with_unfolding_all decide) (by norm_num)]
  have h2 : toFixed2Q (100 * ((110 : ℚ) - 100) / 100) = "10.00" := by
    with_unfolding_all decide
  rw [h2]

/-- Claim C4, amended: with a previous close of 0 the source performs the
JS division anyway: the rendered `changePercent` is `"Infinity"`,
`"-Infinity"` or `"NaN"` according to the sign of the latest close, the
symbol still succeeds, and no provider error is raised. (As literally
stated the claim fails: the overall fetch-failure policy is not triggered,
see the counterexample.) -/
theorem zero_previous_close_renders_special (r : AVResp)
    (ts : List (String × JSNum)) (d0 d1 : String) (l : ℚ)
    (hthrow : r.fetchThrows = false) (hok : r.ok = true)
    (hts : r.timeSeries = some ts)
    (hdates : lastTwo (sortedDates ts) = [d0, d1])
    (hp : ts.lookup d0 = some (.num 0)) (hl : ts.lookup d1 = some (.num l)) :
    processSymbol r =
      .ok (.num l,
        if 0 < l then "Infinity" else if l < 0 then "-Infinity" else "NaN") := by
  have h100 : (0 : ℚ) < 100 := by norm_num
  have key : jsMul (jsDiv (jsSub (.num l) (.num 0)) (.num 0)) (.num 100) =
      if 0 < l then .inf else if l < 0 then .neginf else .nan := by
    rcases lt_trichotomy 0 l with h | h | h
    · simp [jsSub, jsDiv, jsMul, sub_zero, h, h100]
    · simp [jsSub, jsDiv, jsMul, sub_zero, ← h]
    · have hnl : ¬(0 < l) := not_lt.mpr h.le
      simp [jsSub, jsDiv, jsMul, sub_zero, h, hnl, h100]
  unfold processSymbol
  rw [hthrow, hok]
  simp only [Bool.false_eq_true, if_false, if_true]
  rw [hts]
  simp only [hdates, List.length_cons, List.length_nil]
  norm_num
  simp only [hl, hp]
  rw [key]
  rcases lt_trichotomy 0 l with h | h | h
  · simp [h, JSNum.toFixed2]
  · simp [← h, JSNum.toFixed2]
  · have hnl : ¬(0 < l) := not_lt.mpr h.le
    simp [h, hnl, JSNum.toFixed2]

theorem zero_previous_close_witness :
    processSymbol cAVzero = .ok (.num 110, "Infinity") := by
  rw [zero_previous_close_renders_special cAVzero cTsZero "2024-01-01"
    "2024-01-02" 110 rfl rfl rfl (by decide) (by with_unfolding_all decide)
    (by with_unfolding_all decide)]
  rw [if_pos (by norm_num : (0 : ℚ) < 110)]

/-- Claim C4, counterexample: with SPY closes 0 then 110 and healthy QQQ
and CoinGecko legs, `fetchMarketData` renders a snapshot containing
`Infinity%` instead of triggering the fetch-failure policy. -/
theorem zero_previous_close_counterexample :
    cMarketZero.spy.timeSeries =
        some [("2024-01-01", JSNum.num 0), ("2024-01-02", JSNum.num 110)] ∧
      fetchMarketData cMarketZero =
        "Market snapshot: S&P 500 (via SPY): $110.00 (Infinity%), Nasdaq (via QQQ): $110.00 (10.00%), Bitcoin: $50000.00 (1.50%)" ∧
      fetchMarketData cMarketZero ≠ "Market data unavailable" := by
  with_unfolding_all decide

/-- Claim C1, amended: in `daily-brief.ts` the all-or-nothing policy holds:
if any leg (SPY, QQQ, CoinGecko) rejects, is non-ok, or is malformed, the
collector returns exactly `"Market data unavailable"` and no partial
snapshot. (As stated over both cited implementations the claim fails: the
`part_000` variant emits a partial snapshot with `"N/A"` placeholders for a
malformed leg, see the counterexample.) -/
theorem market_failure_all_or_nothing (e : MarketEnv)
    (h : avFails e.spy ∨ avFails e.qqq ∨ cgFails e.cg) :
    fetchMarketData e = "Market data unavailable" := by
  have hE : fetchMarketDataE e = .error () := by
    unfold fetchMarketDataE
    rcases h with h | h | h
    · rw [avFails_error _ h]
    · rcases hs : processSymbol e.spy with u | spyData
      · rfl
      · rw [avFails_error _ h]
    · rcases hs : processSymbol e.spy with u | spyData
      · rfl
      · rcases hq : processSymbol e.qqq with u | qqqData
        · rfl
        · rcases h with h | h | h | ⟨b, hb, hub⟩
          · simp [h]
          · cases hcf : e.cg.fetchThrows
            · simp [hcf, h]
            · simp [hcf]
          · cases hcf : e.cg.fetchThrows
            · cases hco : e.cg.ok
              · simp [hcf, hco]
              · simp [hcf, hco, h]
            · simp [hcf]
          · cases hcf : e.cg.fetchThrows
            · cases hco : e.cg.ok
              · simp [hcf, hco]
              · rcases hub with hu | hu
                · simp [hcf, hco, hb, hu]
                · cases hbu : b.usd <;> simp [hcf, hco, hb, hu, hbu]
            · simp [hcf]
  unfold fetchMarketData
  rw [hE]

theorem market_failure_all_or_nothing_witness :
    fetchMarketData cMarketFail = "Market data unavailable" :=
  market_failure_all_or_nothing cMarketFail (Or.inl (Or.inl rfl))

/-- Claim C1, counterexample: in the `part_000` variant, a malformed S&P
500 response (no `"Global Quote"` key) with healthy Nasdaq and Bitcoin legs
yields a partial snapshot with `"N/A"` placeholders, not the fixed
placeholder string. -/
theorem market_partial_na_counterexample :
    cSpMalformed.quote = none ∧
      fetchMarketDataV0 cSpMalformed cNasGood cBtcGood =
        "Market snapshot: S&P 500: N/A (N/A), Nasdaq: 20000.00 (1.00%), Bitcoin: $50000.00" ∧
      fetchMarketDataV0 cSpMalformed cNasGood cBtcGood ≠
        "Market data unavailable" := by
  decide

end DailyBrief
